import Mathlib

/-!
Verification of the retrieval-augmented-generation core of the RAG-RFP-Chatbot
repository: a shallow embedding of `rag_evaluator.py` (defensive JSON parsing,
four-metric evaluation, weighted overall scoring, recommendation generation)
and `rag_engine.py` (chunk metadata, lexical reranking, citation deduplication,
query short-circuiting), together with theorems settling the specification
claims about them.

Machine integers do not occur (Python integers are unbounded); Python floats
are modelled as exact rationals, `round` and f-string decimal formatting as
decimal rounding half-to-even on the rational value.  Fallible Python code (statements
that can raise) is modelled with `Except String`.
-/

namespace RFP

/-! ## JSON values and `json.loads`

Model of the Python `json` module as used by `rag_evaluator._safe_parse_json`:
a JSON value datatype and a strict recursive-descent parser that accepts a
complete document (with surrounding whitespace) and rejects everything else,
mirroring `json.loads`.  Object key duplication keeps source order in the
field list; dictionary semantics (later keys win) live in `lookupLast`. -/

/-- JSON value as produced by `json.loads` (numbers as exact rationals). -/
inductive Json where
  | null
  | bool (b : Bool)
  | num (q : ℚ)
  | str (s : String)
  | arr (elems : List Json)
  | obj (fields : List (String × Json))

/-- Opening curly brace character (written via its code point throughout). -/
def lbrace : Char := Char.ofNat 123

/-- Closing curly brace character. -/
def rbrace : Char := Char.ofNat 125

/-- Whitespace accepted between JSON tokens by `json.loads`. -/
def jsonWs (c : Char) : Bool := c = ' ' || c = '\t' || c = '\n' || c = '\r'

/-- Drop leading JSON whitespace. -/
def skipWs (s : List Char) : List Char := s.dropWhile jsonWs

/-- Hexadecimal digit value, for `\uXXXX` escapes. -/
def hexVal (c : Char) : Option Nat :=
  if '0' ≤ c ∧ c ≤ '9' then some (c.toNat - 48)
  else if 'a' ≤ c ∧ c ≤ 'f' then some (c.toNat - 87)
  else if 'A' ≤ c ∧ c ≤ 'F' then some (c.toNat - 55)
  else none

/-- Parse the body of a JSON string literal (after the opening quote),
with the standard escape sequences; control characters are rejected as in
strict-mode `json.loads`. -/
def parseStr : Nat → List Char → List Char → Option (String × List Char)
  | 0, _, _ => none
  | fuel + 1, acc, s =>
    match s with
    | [] => none
    | c :: rest =>
      if c = '"' then some (String.mk acc.reverse, rest)
      else if c = '\\' then
        match rest with
        | [] => none
        | e :: rest2 =>
          if e = '"' then parseStr fuel ('"' :: acc) rest2
          else if e = '\\' then parseStr fuel ('\\' :: acc) rest2
          else if e = '/' then parseStr fuel ('/' :: acc) rest2
          else if e = 'b' then parseStr fuel ('\x08' :: acc) rest2
          else if e = 'f' then parseStr fuel ('\x0c' :: acc) rest2
          else if e = 'n' then parseStr fuel ('\n' :: acc) rest2
          else if e = 'r' then parseStr fuel ('\r' :: acc) rest2
          else if e = 't' then parseStr fuel ('\t' :: acc) rest2
          else if e = 'u' then
            match rest2 with
            | h1 :: h2 :: h3 :: h4 :: rest3 =>
              match hexVal h1, hexVal h2, hexVal h3, hexVal h4 with
              | some a, some b, some c2, some d =>
                parseStr fuel (Char.ofNat (((a * 16 + b) * 16 + c2) * 16 + d) :: acc) rest3
              | _, _, _, _ => none
            | _ => none
          else none
      else if c.toNat < 32 then none
      else parseStr fuel (c :: acc) rest

/-- Split off a maximal run of decimal digits. -/
def takeDigits (s : List Char) : List Char × List Char :=
  (s.takeWhile (·.isDigit), s.dropWhile (·.isDigit))

/-- Numeric value of a digit run. -/
def digitsVal (ds : List Char) : Nat := ds.foldl (fun n c => n * 10 + (c.toNat - 48)) 0

/-- Parse the optional exponent part of a JSON number and assemble the value. -/
def parseExp (neg : Bool) (ip fp : List Char) (s : List Char) : Option (Json × List Char) :=
  let base : ℚ := (digitsVal ip : ℚ) + (digitsVal fp : ℚ) / ((10 : ℚ) ^ fp.length)
  let mk : ℚ → Json := fun q => .num (if neg then -q else q)
  match s with
  | c :: r =>
    if c = 'e' ∨ c = 'E' then
      let (esign, r1) : ℤ × List Char :=
        match r with
        | '+' :: rr => (1, rr)
        | '-' :: rr => (-1, rr)
        | _ => (1, r)
      let (ed, r2) := takeDigits r1
      if ed = [] then none
      else some (mk (base * (10 : ℚ) ^ (esign * (digitsVal ed : ℤ))), r2)
    else some (mk base, c :: r)
  | [] => some (mk base, [])

/-- Parse a JSON number (rejecting leading zeros, as `json.loads` does). -/
def parseNum (s : List Char) : Option (Json × List Char) :=
  let (neg, s1) : Bool × List Char :=
    match s with
    | '-' :: r => (true, r)
    | _ => (false, s)
  let (ip, s2) := takeDigits s1
  if ip = [] ∨ (1 < ip.length ∧ ip.head? = some '0') then none
  else
    match s2 with
    | '.' :: r =>
      let (fp, s3) := takeDigits r
      if fp = [] then none else parseExp neg ip fp s3
    | _ => parseExp neg ip [] s2

mutual

/-- Parse one JSON value, returning it with the unconsumed remainder. -/
def parseVal : Nat → List Char → Option (Json × List Char)
  | 0, _ => none
  | fuel + 1, s =>
    match skipWs s with
    | [] => none
    | c :: rest =>
      if c = lbrace then
        match skipWs rest with
        | c2 :: rest2 =>
          if c2 = rbrace then some (.obj [], rest2)
          else parseFields fuel (c2 :: rest2)
        | [] => none
      else if c = '[' then
        match skipWs rest with
        | c2 :: rest2 =>
          if c2 = ']' then some (.arr [], rest2)
          else parseElems fuel (c2 :: rest2)
        | [] => none
      else if c = '"' then
        match parseStr (rest.length + 1) [] rest with
        | some (str, rest2) => some (.str str, rest2)
        | none => none
      else if c = 't' then
        if "rue".toList.isPrefixOf rest then some (.bool true, rest.drop 3) else none
      else if c = 'f' then
        if "alse".toList.isPrefixOf rest then some (.bool false, rest.drop 4) else none
      else if c = 'n' then
        if "ull".toList.isPrefixOf rest then some (.null, rest.drop 3) else none
      else parseNum (c :: rest)

/-- Parse the elements of a non-empty JSON array (after the opening bracket). -/
def parseElems : Nat → List Char → Option (Json × List Char)
  | 0, _ => none
  | fuel + 1, s =>
    match parseVal fuel s with
    | none => none
    | some (v, r) =>
      match skipWs r with
      | ',' :: r2 =>
        match parseElems fuel r2 with
        | some (.arr vs, r3) => some (.arr (v :: vs), r3)
        | _ => none
      | ']' :: r2 => some (.arr [v], r2)
      | _ => none

/-- Parse the fields of a non-empty JSON object (after the opening brace). -/
def parseFields : Nat → List Char → Option (Json × List Char)
  | 0, _ => none
  | fuel + 1, s =>
    match skipWs s with
    | '"' :: rest =>
      match parseStr (rest.length + 1) [] rest with
      | none => none
      | some (key, r) =>
        match skipWs r with
        | ':' :: r2 =>
          match parseVal fuel r2 with
          | none => none
          | some (v, r3) =>
            match skipWs r3 with
            | ',' :: r4 =>
              match parseFields fuel r4 with
              | some (.obj fs, r5) => some (.obj ((key, v) :: fs), r5)
              | _ => none
            | c :: r4 =>
              if c = rbrace then some (.obj [(key, v)], r4) else none
            | [] => none
        | _ => none
    | _ => none

end

/-- Model of `json.loads`: parse a complete document, allowing surrounding
whitespace only; `none` models `json.JSONDecodeError`. -/
def jsonLoads (text : String) : Option Json :=
  match parseVal (2 * text.length + 8) text.toList with
  | some (v, rest) => if skipWs rest = [] then some v else none
  | none => none

/-! ## The regex fallback tiers of `_safe_parse_json` -/

/-- Whitespace class of the regex escape used in the fenced-block pattern. -/
def reWs (c : Char) : Bool :=
  c = ' ' || c = '\t' || c = '\n' || c = '\r' || c = '\x0b' || c = '\x0c'

/-- Drop leading regex whitespace. -/
def dropReWs (s : List Char) : List Char := s.dropWhile reWs

/-- Lazy search for the closing brace of the fenced group: the first closing
brace that is followed (after optional whitespace) by a code fence, as matched
by the non-greedy brace group of the fenced-block pattern. -/
def lazyBrace (acc : List Char) : List Char → Option (List Char)
  | [] => none
  | c :: rest =>
    if c = rbrace ∧ "```".toList.isPrefixOf (dropReWs rest) then
      some (acc.reverse ++ [rbrace])
    else lazyBrace (c :: acc) rest

/-- Search for a fenced JSON block: the leftmost occurrence of the code-fence
opener followed by optional whitespace, a brace group (non-greedy), optional
whitespace and a closing fence; returns the brace group.  Models
`re.search` of the fenced pattern with `re.DOTALL` in `_safe_parse_json`. -/
def fencedSearch : List Char → Option (List Char)
  | [] => none
  | c :: rest =>
    if "```json".toList.isPrefixOf (c :: rest) then
      match dropReWs ((c :: rest).drop 7) with
      | c2 :: body =>
        if c2 = lbrace then
          match lazyBrace [lbrace] body with
          | some g => some g
          | none => fencedSearch rest
        else fencedSearch rest
      | [] => fencedSearch rest
    else fencedSearch rest

/-- Search for a brace-delimited span: leftmost opening brace up to the last
closing brace after it (the greedy dot-star of the brace pattern with
`re.DOTALL`). -/
def braceSearch (l : List Char) : Option (List Char) :=
  match l.findIdx? (· = lbrace), (l.reverse.findIdx? (· = rbrace)) with
  | some i, some j =>
    let k := l.length - 1 - j
    if i < k then some ((l.drop i).take (k + 1 - i)) else none
  | _, _ => none

/-- Default object returned by `_safe_parse_json` when every tier fails. -/
def defaultEvalJson : Json :=
  .obj [("score", .num 0), ("verdict", .str "ERROR"), ("reasoning", .str "Failed to parse evaluation")]

/-- Model of `RAGEvaluator._safe_parse_json`.  Tier 1 (`json.loads` of the
whole text) is wrapped in `try`, so its failure falls through; the
`json.loads` calls of tier 2 (fenced block) and tier 3 (brace span) are NOT
inside any `try` in the source, so their failure raises `json.JSONDecodeError`
out of the function, modelled as `.error`. -/
def safe_parse_json (text : String) : Except String Json :=
  match jsonLoads text with
  | some v => .ok v
  | none =>
    match fencedSearch text.toList with
    | some g =>
      match jsonLoads (String.mk g) with
      | some v => .ok v
      | none => .error "json.JSONDecodeError"
    | none =>
      match braceSearch text.toList with
      | some g =>
        match jsonLoads (String.mk g) with
        | some v => .ok v
        | none => .error "json.JSONDecodeError"
      | none => .ok defaultEvalJson

/-! ## Python dictionary access and value coercions -/

/-- Lookup in a parsed JSON object with Python `dict` semantics: a key that
occurs several times keeps its last value. -/
def lookupLast (d : List (String × Json)) (k : String) : Option Json :=
  match d with
  | [] => none
  | (k2, v) :: rest =>
    match lookupLast rest k with
    | some v2 => some v2
    | none => if k2 = k then some v else none

/-- Model of Python `dict.get(key, default)`. -/
def dictGet (d : List (String × Json)) (k : String) (dflt : Json) : Json :=
  (lookupLast d k).getD dflt

/-- Numeric reading of a value as used in Python comparisons `score >= t`:
numbers compare as themselves, booleans as 0/1; comparing any other type with
a float raises `TypeError`. -/
def asPyNum : Json → Except String ℚ
  | .num q => .ok q
  | .bool b => .ok (if b then 1 else 0)
  | _ => .error "TypeError"

/-- String rendering of a value as produced by interpolating it into an
f-string.  Container and numeric renderings are approximations of `str`; the
evaluator only ever interpolates strings on the paths the claims exercise. -/
def pyStr : Json → String
  | .str s => s
  | .bool true => "True"
  | .bool false => "False"
  | .null => "None"
  | .num q => toString q
  | .arr _ => "[...]"
  | .obj _ => "\x7b...\x7d"

/-- Reading of a parsed field as a list of strings (claim lists). -/
def asStrList : Json → List String
  | .arr xs => xs.map pyStr
  | _ => []

/-! ## Decimal rounding

Python `round` and f-string decimal formatting round half to even at the
n-th decimal place; modelled exactly on the rational value. -/

/-- Round a rational to the nearest integer, half to even. -/
def roundHalfEven (x : ℚ) : ℤ :=
  let f := ⌊x⌋
  let r := x - (f : ℚ)
  if r < 1 / 2 then f
  else if 1 / 2 < r then f + 1
  else if f % 2 = 0 then f else f + 1

/-- Model of Python `round(x, 3)`. -/
def pyRound3 (x : ℚ) : ℚ := (roundHalfEven (x * 1000) : ℚ) / 1000

/-- Two-digit zero-padded rendering of a number below 100. -/
def pad2 (n : Nat) : String := if n < 10 then "0" ++ toString n else toString n

/-- Model of the two-decimal f-string number format. -/
def fmt2 (x : ℚ) : String :=
  let n := roundHalfEven (x * 100)
  let a := n.natAbs
  (if n < 0 then "-" else "") ++ toString (a / 100) ++ "." ++ pad2 (a % 100)

/-! ## Metric results

A metric evaluation returns a Python dict; its fields used downstream are
modelled as a structure.  The purely display-facing fields of each metric
(`individual_scores`, `supported_claims`, `addresses_query`,
`irrelevant_content`, `has_citations`, `citation_examples`, `uncited_claims`)
are not consumed by any later computation and are not modelled.  `reasoning`
is stored already rendered to a string (the source stores the raw parsed value
and renders it when interpolating it into a recommendation; the composed
behaviour is identical). -/

/-- Result dict of one evaluation metric. -/
structure MetricResult where
  metric : String
  score : ℚ
  reasoning : String
  verdict : String
  threshold : ℚ
  unsupported_claims : List String := []
  missing_aspects : List String := []
deriving Repr, DecidableEq

/-- Tail of `evaluate_context_relevance`, from the parsed response object
(`RAGEvaluator.evaluate_context_relevance`, the code after `_safe_parse_json`):
`score = result.get("average_score", 0.0)`, verdict recomputed from the score
against the fixed threshold `0.7`. -/
def evaluate_context_relevance_result (d : List (String × Json)) : Except String MetricResult := do
  let score ← asPyNum (dictGet d "average_score" (.num 0))
  .ok { metric := "context_relevance"
        score := score
        reasoning := pyStr (dictGet d "reasoning" (.str "No reasoning provided"))
        verdict := if 0.7 ≤ score then "PASS" else "FAIL"
        threshold := 0.7 }

/-- Tail of `evaluate_faithfulness` from the parsed response object:
`score = result.get("score", 0.0)`, verdict `FAITHFUL` iff score ≥ 0.8. -/
def evaluate_faithfulness_result (d : List (String × Json)) : Except String MetricResult := do
  let score ← asPyNum (dictGet d "score" (.num 0))
  .ok { metric := "faithfulness"
        score := score
        reasoning := pyStr (dictGet d "reasoning" (.str "No reasoning provided"))
        verdict := if 0.8 ≤ score then "FAITHFUL" else "UNFAITHFUL"
        threshold := 0.8
        unsupported_claims := asStrList (dictGet d "unsupported_claims" (.arr [])) }

/-- Tail of `evaluate_answer_relevance` from the parsed response object:
`score = result.get("score", 0.0)`, verdict `RELEVANT` iff score ≥ 0.7. -/
def evaluate_answer_relevance_result (d : List (String × Json)) : Except String MetricResult := do
  let score ← asPyNum (dictGet d "score" (.num 0))
  .ok { metric := "answer_relevance"
        score := score
        reasoning := pyStr (dictGet d "reasoning" (.str "No reasoning provided"))
        verdict := if 0.7 ≤ score then "RELEVANT" else "IRRELEVANT"
        threshold := 0.7
        missing_aspects := asStrList (dictGet d "missing_aspects" (.arr [])) }

/-- Tail of `evaluate_citation_quality` from the parsed response object:
`score = result.get("score", 0.0)`, verdict `GOOD` iff score ≥ 0.6. -/
def evaluate_citation_quality_result (d : List (String × Json)) : Except String MetricResult := do
  let score ← asPyNum (dictGet d "score" (.num 0))
  .ok { metric := "citation_quality"
        score := score
        reasoning := pyStr (dictGet d "reasoning" (.str "No reasoning provided"))
        verdict := if 0.6 ≤ score then "GOOD" else "POOR"
        threshold := 0.6 }

/-- Shared shape of the four metric evaluators: invoke the completion
collaborator (whose reply is the `response` argument), parse it defensively,
then build the result dict; `result.get` on a non-dict parse raises
`AttributeError`. -/
def evaluate_metric (tail : List (String × Json) → Except String MetricResult)
    (response : String) : Except String MetricResult := do
  match ← safe_parse_json response with
  | .obj d => tail d
  | _ => .error "AttributeError"

/-- `RAGEvaluator.evaluate_context_relevance` as a function of the completion
collaborator response. -/
def evaluate_context_relevance (response : String) : Except String MetricResult :=
  evaluate_metric evaluate_context_relevance_result response

/-- `RAGEvaluator.evaluate_faithfulness` as a function of the response. -/
def evaluate_faithfulness (response : String) : Except String MetricResult :=
  evaluate_metric evaluate_faithfulness_result response

/-- `RAGEvaluator.evaluate_answer_relevance` as a function of the response. -/
def evaluate_answer_relevance (response : String) : Except String MetricResult :=
  evaluate_metric evaluate_answer_relevance_result response

/-- `RAGEvaluator.evaluate_citation_quality` as a function of the response. -/
def evaluate_citation_quality (response : String) : Except String MetricResult :=
  evaluate_metric evaluate_citation_quality_result response

/-! ## Recommendation generation (`_generate_detailed_recommendations`) -/

/-- Recommendation emitted when context relevance scores below 0.7. -/
def rec_context_relevance (cr : MetricResult) : String :=
  "⚠️ LOW CONTEXT RELEVANCE (" ++ fmt2 cr.score ++ "): " ++ cr.reasoning ++
  ". Try: Increase Top K to 8-10, reduce chunk size to 600-800, or use better embeddings model."

/-- Recommendation emitted when faithfulness scores below 0.8. -/
def rec_faithfulness (f : MetricResult) : String :=
  "🚨 LOW FAITHFULNESS (" ++ fmt2 f.score ++ "): " ++ f.reasoning ++
  ". Unsupported claims: " ++
  (if f.unsupported_claims.isEmpty then "See details"
   else String.intercalate ", " f.unsupported_claims) ++
  ". Try: Lower temperature to 0.3-0.5, improve prompt instructions, or check if documents contain the required info."

/-- Recommendation emitted when answer relevance scores below 0.7. -/
def rec_answer_relevance (ar : MetricResult) : String :=
  "⚠️ LOW ANSWER RELEVANCE (" ++ fmt2 ar.score ++ "): " ++ ar.reasoning ++
  ". Missing: " ++
  (if ar.missing_aspects.isEmpty then "See details"
   else String.intercalate ", " ar.missing_aspects) ++
  ". Try: Rephrase query to be more specific, or check if documents actually contain the answer."

/-- Recommendation emitted when citation quality scores below 0.6. -/
def rec_citation_quality (cq : MetricResult) : String :=
  "📄 POOR CITATION QUALITY (" ++ fmt2 cq.score ++ "): " ++ cq.reasoning ++
  ". Try: Enhance prompt to explicitly require source citations for each claim."

/-- Positive acknowledgment emitted when every metric meets its threshold. -/
def positive_ack (cr f ar cq : MetricResult) : String :=
  "✅ EXCELLENT RESPONSE! All metrics above threshold. Overall score: " ++
  fmt2 (cr.score * 0.25 + f.score * 0.35 + ar.score * 0.25 + cq.score * 0.15)

/-- Model of `RAGEvaluator._generate_detailed_recommendations`: one warning
per metric strictly below its own threshold, in the fixed metric order, and a
single positive acknowledgment when no warning was produced. -/
def generate_detailed_recommendations (cr f ar cq : MetricResult) : List String :=
  let recs :=
    (if cr.score < 0.7 then [rec_context_relevance cr] else []) ++
    (if f.score < 0.8 then [rec_faithfulness f] else []) ++
    (if ar.score < 0.7 then [rec_answer_relevance ar] else []) ++
    (if cq.score < 0.6 then [rec_citation_quality cq] else [])
  if recs.isEmpty then [positive_ack cr f ar cq] else recs

/-! ## Citations and the evaluation report -/

/-- Page marker of a chunk: a native page number, a synthesized string marker
(`"Para-N"`, `"Sheet-N"`), or the `"N/A"` sentinel.  Distinguishing numbers
from strings mirrors Python tuple equality on `(file, page)` keys. -/
inductive PageTag where
  | num (n : ℤ)
  | str (s : String)
  | na
deriving Repr, DecidableEq

/-- Rendering of a page marker in an f-string. -/
def page_str : PageTag → String
  | .num n => toString n
  | .str s => s
  | .na => "N/A"

/-- Source citation dict: `(file, page)` plus a preview. -/
structure Citation where
  file : String
  page : PageTag
  preview : String
deriving Repr, DecidableEq

/-- Evaluation report returned by `comprehensive_evaluation`. -/
structure EvalReport where
  query : String
  answer : String
  sources : List Citation
  context_relevance : MetricResult
  faithfulness : MetricResult
  answer_relevance : MetricResult
  citation_quality : MetricResult
  overall_score : ℚ
  overall_verdict : String
  recommendations : List String
deriving Repr, DecidableEq

/-- Aggregation step of `RAGEvaluator.comprehensive_evaluation` (lines after
the four metric calls): the weighted overall score with fixed weights
0.25/0.35/0.25/0.15, the report with `overall_score` rounded to 3 decimals,
and `overall_verdict` computed by comparing the UNROUNDED weighted sum with
0.7. -/
def comprehensive_evaluation_core (query answer : String) (sources : List Citation)
    (context_rel faithfulness answer_rel citation_qual : MetricResult) : EvalReport :=
  let overall_score : ℚ :=
    context_rel.score * 0.25 + faithfulness.score * 0.35 +
    answer_rel.score * 0.25 + citation_qual.score * 0.15
  { query := query
    answer := if 200 < answer.length then answer.take 200 ++ "..." else answer
    sources := sources
    context_relevance := context_rel
    faithfulness := faithfulness
    answer_relevance := answer_rel
    citation_quality := citation_qual
    overall_score := pyRound3 overall_score
    overall_verdict := if 0.7 ≤ overall_score then "PASS" else "FAIL"
    recommendations :=
      generate_detailed_recommendations context_rel faithfulness answer_rel citation_qual }

/-! ## The metric prompts

Prompt templates sent to the completion collaborator, transcribed from the
source (braces and apostrophes written as character escapes). -/

/-- Context list as rendered in the context-relevance prompt (each context
truncated to 500 characters). -/
def contexts_text_truncated (contexts : List String) : String :=
  String.intercalate "\n\n"
    ((contexts.enum).map (fun p => "Context " ++ toString (p.1 + 1) ++ ":\n" ++ p.2.take 500 ++ "..."))

/-- Context list as rendered in the faithfulness prompt (untruncated). -/
def contexts_text_full (contexts : List String) : String :=
  String.intercalate "\n\n"
    ((contexts.enum).map (fun p => "Context " ++ toString (p.1 + 1) ++ ":\n" ++ p.2))

/-- Source list as rendered in the citation-quality prompt. -/
def sources_text (sources : List Citation) : String :=
  String.intercalate "\n"
    (sources.map (fun s => "- " ++ s.file ++ ", Page " ++ page_str s.page))

/-- Prompt of `evaluate_context_relevance`. -/
def context_relevance_prompt (query : String) (contexts : List String) : String :=
  "Evaluate how relevant each retrieved context is to the user\x27s query. \n\nQUERY: " ++
  query ++ "\n\nCONTEXTS:\n" ++ contexts_text_truncated contexts ++
  "\n\nFor each context, rate its relevance on a scale of 0.0 to 1.0 where:\n- 0.0-0.3: Completely irrelevant\n- 0.4-0.6: Somewhat relevant but missing key information\n- 0.7-0.8: Relevant with some useful information\n- 0.9-1.0: Highly relevant and directly answers the query\n\nRespond ONLY with a JSON object in this exact format:\n\x7b\n  \"individual_scores\": [0.9, 0.7, 0.5, 0.3, 0.2],\n  \"average_score\": 0.52,\n  \"reasoning\": \"Context 1 and 2 directly address the budget question with specific numbers. Context 3 mentions budget but lacks details. Contexts 4 and 5 discuss unrelated project timeline information.\",\n  \"verdict\": \"PASS or FAIL (PASS if average >= 0.7)\"\n\x7d"

/-- Prompt of `evaluate_faithfulness`. -/
def faithfulness_prompt (answer : String) (contexts : List String) : String :=
  "Evaluate if the answer is faithful to the provided contexts. Check each claim in the answer against the contexts.\n\nCONTEXTS:\n" ++
  contexts_text_full contexts ++ "\n\nANSWER: " ++ answer ++
  "\n\nAnalyze each statement in the answer:\n- Is it directly supported by the contexts?\n- Is it a reasonable inference from the contexts?\n- Is it added information not in contexts (hallucination)?\n\nRespond ONLY with a JSON object:\n\x7b\n  \"score\": 0.85,\n  \"supported_claims\": [\"Budget is $500K (from Context 1)\", \"Timeline is 6 months (from Context 2)\"],\n  \"unsupported_claims\": [\"The project includes 10 team members (NOT mentioned in contexts)\"],\n  \"reasoning\": \"Most claims are well-supported, but team size claim appears to be hallucinated\",\n  \"verdict\": \"FAITHFUL or UNFAITHFUL (FAITHFUL if score >= 0.8)\"\n\x7d"

/-- Prompt of `evaluate_answer_relevance`. -/
def answer_relevance_prompt (query answer : String) : String :=
  "Evaluate if the answer is relevant to and addresses the user\x27s query.\n\nQUERY: " ++
  query ++ "\n\nANSWER: " ++ answer ++
  "\n\nConsider:\n- Does the answer directly address what was asked?\n- Is the answer complete or does it miss important aspects of the question?\n- Does it contain unnecessary information not related to the query?\n\nRespond ONLY with a JSON object:\n\x7b\n  \"score\": 0.9,\n  \"addresses_query\": true,\n  \"missing_aspects\": [\"Doesn\x27t mention the deadline which was part of the question\"],\n  \"irrelevant_content\": [\"Discusses team structure which wasn\x27t asked about\"],\n  \"reasoning\": \"Answer provides the requested budget information clearly but adds unnecessary team details\",\n  \"verdict\": \"RELEVANT or IRRELEVANT (RELEVANT if score >= 0.7)\"\n\x7d"

/-- Prompt of `evaluate_citation_quality`. -/
def citation_quality_prompt (answer : String) (sources : List Citation) : String :=
  "Evaluate how well the answer cites its sources.\n\nAVAILABLE SOURCES:\n" ++
  sources_text sources ++ "\n\nANSWER: " ++ answer ++
  "\n\nCheck:\n- Does the answer reference specific sources when making claims?\n- Are the citations appropriate and helpful?\n- Can we trace claims back to sources?\n\nRespond ONLY with a JSON object:\n\x7b\n  \"score\": 0.75,\n  \"has_citations\": true,\n  \"citation_examples\": [\"According to Source 1...\"],\n  \"uncited_claims\": [\"The deadline claim lacks a source reference\"],\n  \"reasoning\": \"Answer cites sources for budget info but not for deadline\",\n  \"verdict\": \"GOOD or POOR (GOOD if score >= 0.6)\"\n\x7d"

/-- Model of `RAGEvaluator.comprehensive_evaluation`: run the four metrics
against the completion collaborator `eval_llm` (a function from prompt text to
reply text), then aggregate.  An uncaught exception in any metric propagates. -/
def comprehensive_evaluation (eval_llm : String → String) (query answer : String)
    (contexts : List String) (sources : List Citation) : Except String EvalReport := do
  let context_rel ← evaluate_context_relevance (eval_llm (context_relevance_prompt query contexts))
  let faithfulness ← evaluate_faithfulness (eval_llm (faithfulness_prompt answer contexts))
  let answer_rel ← evaluate_answer_relevance (eval_llm (answer_relevance_prompt query answer))
  let citation_qual ← evaluate_citation_quality (eval_llm (citation_quality_prompt answer sources))
  .ok (comprehensive_evaluation_core query answer sources context_rel faithfulness answer_rel citation_qual)

/-! ## Retrieval documents and the lexical reranker (`rag_engine.py`) -/

/-- Retrieved chunk as stored in the vector index: text plus the metadata
fields the query path reads (`source`, `page`, `preview`). -/
structure Doc where
  page_content : String
  source : String
  page : PageTag
  preview : String
deriving Repr, DecidableEq

/-- Whitespace recognized by Python `str.split()` with no arguments. -/
def pyWs (c : Char) : Bool :=
  c = ' ' || c = '\t' || c = '\n' || c = '\r' || c = '\x0b' || c = '\x0c'

/-- Model of Python `str.split()`: split on whitespace runs, dropping empty
pieces. -/
def py_split (s : String) : List String :=
  ((s.toList.splitOnP pyWs).filter (· ≠ [])).map (fun l => String.mk l)

/-- Model of Python `str.lower()` (ASCII case folding, character-wise). -/
def py_lower (s : String) : String := String.mk (s.toList.map Char.toLower)

/-- Term set of `s.lower().split()`. -/
def term_set (s : String) : Finset String := (py_split (py_lower s)).toFinset

/-- Lexical-overlap score of a chunk against the query term set; the source
divides by `len(query_terms)` with no zero guard, so callers must ensure the
set is non-empty. -/
def keyword_score (qt : Finset String) (d : Doc) : ℚ :=
  ((qt ∩ term_set d.page_content).card : ℚ) / (qt.card : ℚ)

/-- Comparison used by the descending stable sort of the reranker: Python
`sort(key=score, reverse=True)` is the stable sort under this relation. -/
def rerank_le (qt : Finset String) (a b : Doc) : Bool :=
  decide (keyword_score qt b ≤ keyword_score qt a)

/-- Model of `ImprovedRAGService._rerank_chunks`: score every candidate by
lexical overlap, stable-sort descending, return the first `top_n`.  When the
query term set is empty the per-chunk score computation raises
`ZeroDivisionError` (on the first candidate), modelled as `.error`; with no
candidates the scoring loop body never runs and the empty list is returned. -/
def rerank_chunks (query : String) (chunks : List Doc) (top_n : Nat) :
    Except String (List Doc) :=
  let qt := term_set query
  if qt = ∅ ∧ chunks ≠ [] then .error "ZeroDivisionError"
  else .ok ((chunks.mergeSort (rerank_le qt)).take top_n)

/-! ## Citation deduplication and the query pipeline -/

/-- Deduplication key of a citation. -/
def ckey (c : Citation) : String × PageTag := (c.file, c.page)

/-- Worker of `_deduplicate_sources`, carrying the `seen` key set. -/
def dedup_go (seen : List (String × PageTag)) : List Citation → List Citation
  | [] => []
  | s :: rest =>
    if ckey s ∈ seen then dedup_go seen rest
    else s :: dedup_go (ckey s :: seen) rest

/-- Model of `ImprovedRAGService._deduplicate_sources`: keep the first
citation of every `(file, page)` key, in first-seen order. -/
def deduplicate_sources (l : List Citation) : List Citation := dedup_go [] l

/-- Last path component under both separator conventions, as computed by
`source.split('\\')[-1].split('/')[-1]`. -/
def last_component (sep : String) (s : String) : String :=
  ((s.splitOn sep).getLast?).getD s

/-- Short file name of a source path. -/
def short_file_name (s : String) : String :=
  last_component "/" (last_component "\\" s)

/-- Citation dict extracted from a retrieved chunk in `query`. -/
def doc_citation (d : Doc) : Citation :=
  { file := short_file_name d.source
    page := d.page
    preview := d.preview.take 100 }

/-- Numbered context block of one reranked chunk. -/
def context_block (i : Nat) (d : Doc) : String :=
  "[Source " ++ toString i ++ ": " ++ short_file_name d.source ++ ", Page " ++
  page_str d.page ++ "]\n" ++ d.page_content ++ "\n"

/-- Context assembly over the reranked chunks, 1-based, joined by the visible
separator. -/
def build_context (docs : List Doc) : String :=
  String.intercalate "\n---\n" ((docs.enum).map (fun p => context_block (p.1 + 1) p.2))

/-- Instruction prompt of the answer generator, embedding context and
question. -/
def build_prompt (context question : String) : String :=
  "You are a helpful AI assistant analyzing documents. Answer the question using ONLY the provided context sources.\n\nINSTRUCTIONS:\n1. Read all context sources carefully\n2. Think step-by-step about how to answer the question\n3. Cite specific sources when making claims (e.g., \"According to Source 1...\")\n4. If the answer requires information from multiple sources, synthesize them\n5. If the context doesn\x27t contain enough information, say \"The provided documents don\x27t contain sufficient information to answer this question.\"\n6. Be precise and factual - do not add information not in the context\n\nCONTEXT SOURCES:\n" ++
  context ++ "\n\nQUESTION: " ++ question ++
  "\n\nREASONING PROCESS:\nLet me analyze this step by step:\n1. What is the question asking?\n2. Which sources contain relevant information?\n3. What is the answer based on these sources?\n\nANSWER (with source citations):"

/-- Response of the query operation.  The source returns a dict without an
`"evaluation"` key on the short-circuit path; the HTTP layer reads it with
`result.get("evaluation", None)`, so an absent key and `None` coincide and are
both modelled as `none`. -/
structure QueryResult where
  answer : String
  sources : List Citation
  contexts : List String
  evaluation : Option EvalReport
deriving Repr, DecidableEq

/-- Model of `ImprovedRAGService.query`.  External collaborators are
parameters: `retrieve` is the similarity search of the vector store (question
and `top_k` to ranked candidates), `llm` the answer-generation completion
collaborator, `eval_llm` the evaluator's completion collaborator.
`vector_store` is `none` when no index is loaded.  The second component of
the result counts completion-collaborator invocations. -/
def query (retrieve : String → Nat → List Doc) (llm : String → String)
    (eval_llm : String → String) (vector_store : Option Unit) (question : String)
    (top_k : Nat) (evaluate : Bool) : Except String (QueryResult × Nat) :=
  match vector_store with
  | none =>
    .ok ({ answer := "Index not found. Please upload documents and ingest them first."
           sources := []
           contexts := []
           evaluation := none }, 0)
  | some _ => do
    let docs := retrieve question top_k
    let reranked ← rerank_chunks question docs 5
    let context := build_context reranked
    let contexts_list := reranked.map (·.page_content)
    let sources := deduplicate_sources (reranked.map doc_citation)
    let answer := llm (build_prompt context question)
    if evaluate then
      let ev ← comprehensive_evaluation eval_llm question answer contexts_list sources
      .ok ({ answer := answer, sources := sources, contexts := contexts_list,
             evaluation := some ev }, 5)
    else
      .ok ({ answer := answer, sources := sources, contexts := [],
             evaluation := none }, 1)

/-! ## The chunker

`_chunk_with_page_tracking` delegates the text splitting itself to the
external `RecursiveCharacterTextSplitter` dependency, which is not part of
this repository's sources; the splitter below is therefore modelled from the
spec (&#167;4.1).  Pieces and chunks are intervals over the document character
list, so every emitted chunk is by construction a contiguous slice of the
document.  The per-chunk metadata computation (`find`-based position,
page inheritance, preview) is embedded faithfully from the source. -/

/-- Slice of a document between two character offsets. -/
def doc_slice (doc : List Char) (a b : Nat) : List Char := (doc.drop a).take (b - a)

/-- Substring predicate: `c` occurs contiguously inside `l`. -/
def infix_of (c l : List Char) : Prop := ∃ s t, l = s ++ c ++ t

/-- Worker scanning `[pieceStart, b)` for separator occurrences, emitting the
non-empty pieces between them. -/
def split_level_go (pat doc : List Char) (b : Nat) :
    Nat → Nat → Nat → List (Nat × Nat)
  | pieceStart, _, 0 => if pieceStart < b then [(pieceStart, b)] else []
  | pieceStart, i, fuel + 1 =>
    if b ≤ i then (if pieceStart < b then [(pieceStart, b)] else [])
    else if i + pat.length ≤ b ∧ pat.isPrefixOf (doc.drop i) then
      (if pieceStart < i then [(pieceStart, i)] else []) ++
      split_level_go pat doc b (i + pat.length) (i + pat.length) fuel
    else split_level_go pat doc b pieceStart (i + 1) fuel

/-- Modelled from the spec: split the slice `[a, b)` of the document at every
occurrence of one separator, dropping the separators and empty pieces. -/
def split_level (pat doc : List Char) (a b : Nat) : List (Nat × Nat) :=
  split_level_go pat doc b a a (b + 1 - a)

/-- Separator priority list of the splitter configuration in
`_chunk_with_page_tracking` (the final empty separator, character boundary,
is the base case of `atomic_pieces`). -/
def separators : List (List Char) :=
  ["\n\n".toList, "\n".toList, ". ".toList, "! ".toList, "? ".toList,
   "; ".toList, ": ".toList, ", ".toList, " ".toList]

/-- Modelled from the spec: recursively split a slice at the highest-priority
separator, re-splitting every piece still longer than `chunk_size` with the
next separator, down to single characters. -/
def atomic_pieces (size : Nat) (doc : List Char) :
    List (List Char) → Nat → Nat → List (Nat × Nat)
  | [], a, b =>
    if b ≤ a then []
    else if b - a ≤ size then [(a, b)]
    else (List.range (b - a)).map (fun k => (a + k, a + k + 1))
  | sep :: rest, a, b =>
    if b ≤ a then []
    else if b - a ≤ size then [(a, b)]
    else ((split_level sep doc a b).map
      (fun p => atomic_pieces size doc rest p.1 p.2)).flatten

/-- Modelled from the spec: concatenate adjacent pieces up to `chunk_size`,
keeping the trailing `chunk_overlap` characters of the previous chunk as the
prefix of the next (dropping the overlap when it would not fit). -/
def merge_go (size overlap : Nat) (start cur : Nat) :
    List (Nat × Nat) → List (Nat × Nat)
  | [] => [(start, cur)]
  | (ps, pe) :: rest =>
    if pe - start ≤ size then merge_go size overlap start pe rest
    else
      let s2 := if pe - (cur - overlap) ≤ size then cur - overlap else ps
      (start, cur) :: merge_go size overlap s2 pe rest

/-- Merge a piece list into chunk intervals. -/
def merge_pieces (size overlap : Nat) : List (Nat × Nat) → List (Nat × Nat)
  | [] => []
  | p :: rest => merge_go size overlap p.1 p.2 rest

/-- Modelled from the spec: the splitter contract
`split(document_text, chunk_size, chunk_overlap)`, yielding the chunk texts in
order. -/
def split_text (size overlap : Nat) (doc : List Char) : List (List Char) :=
  (merge_pieces size overlap (atomic_pieces size doc separators 0 doc.length)).map
    (fun p => doc_slice doc p.1 p.2)

/-- Loaded document entering the chunker: text plus loader metadata (`page`
is absent for loaders that do not paginate). -/
structure DocIn where
  page_content : List Char
  source : String
  page : Option PageTag
deriving Repr, DecidableEq

/-- Chunk with the metadata attached by `_chunk_with_page_tracking`. -/
structure Chunk where
  content : List Char
  source : String
  page : PageTag
  chunk_id : Nat
  chunk_position : ℚ
  total_chunks : Nat
  preview : List Char
deriving Repr, DecidableEq

/-- Offset of the first occurrence of `pat` in `l`. -/
def first_occ (pat l : List Char) : Option Nat :=
  if pat.isPrefixOf l then some 0
  else
    match l with
    | [] => none
    | _ :: t => (first_occ pat t).map (· + 1)

/-- Model of Python `str.find`: first-occurrence offset, `-1` when absent. -/
def py_find (pat l : List Char) : ℤ :=
  match first_occ pat l with
  | some i => (i : ℤ)
  | none => -1

/-- Metadata computation of `_chunk_with_page_tracking` for one document:
`chunk_start = doc.page_content.find(chunk)` (first occurrence),
`chunk_position = chunk_start / total_chars if total_chars > 0 else 0`, page
inherited or `"N/A"`, preview the first 100 characters with newlines replaced
by spaces. -/
def chunk_document (size overlap : Nat) (d : DocIn) : List Chunk :=
  let chunks := split_text size overlap d.page_content
  let total := d.page_content.length
  (chunks.enum).map (fun p =>
    { content := p.2
      source := d.source
      page := d.page.getD .na
      chunk_id := p.1
      chunk_position :=
        if 0 < total then (py_find p.2 d.page_content : ℚ) / (total : ℚ) else 0
      total_chunks := chunks.length
      preview := (p.2.take 100).map (fun ch => if ch = '\n' then ' ' else ch) })

/-- Model of `_chunk_with_page_tracking` over a document batch.  Modelled
from the spec: the `chunk_overlap < chunk_size` validation is performed by
the external splitter's constructor, built before any document is processed;
per the spec a violating configuration fails fast with a configuration error
before any chunk is produced. -/
def chunk_with_page_tracking (docs : List DocIn) (size overlap : Nat) :
    Except String (List Chunk) :=
  if size ≤ overlap then .error "ConfigurationError"
  else .ok ((docs.map (chunk_document size overlap)).flatten)

/-! ## Claim theorems -/

/-- Claim C1: the spec states that the evaluation parse function never raises
and degrades to the default object whenever all three tiers fail; the code
contradicts this (and its own docstring) because the `json.loads` calls of the
fallback tiers are not guarded.  A brace-delimited span that is not valid JSON
raises `json.JSONDecodeError` out of `_safe_parse_json`, while plain prose
without braces does reach the default object. -/
theorem safe_parse_json_brace_span_raises :
    safe_parse_json "\x7bnot json\x7d" = .error "json.JSONDecodeError" ∧
    safe_parse_json "The retrieved contexts answer the question well." = .ok defaultEvalJson := by
  exact ⟨rfl, rfl⟩

/-- Claim C2 (counterexample): the claim states that a zero-term query gives
every candidate score 0 without a division-by-zero error; on the code, a
zero-term query with at least one candidate raises `ZeroDivisionError` in the
scoring loop. -/
theorem rerank_zero_term_query_raises :
    rerank_chunks ""
      [{ page_content := "Avaya Infinity supports three SBC models",
         source := "rfp.pdf", page := .num 1, preview := "" }] 5 =
      .error "ZeroDivisionError" := by
  simp only [rerank_chunks]
  rw [if_pos ⟨by decide, List.cons_ne_nil _ _⟩]

/-- Claim C2 (amended): for every query whose lowercase whitespace
tokenization yields zero terms, the reranker returns the empty list when
given no candidates, and raises `ZeroDivisionError` as soon as there is at
least one candidate (there is no zero guard in the code). -/
theorem rerank_zero_term_query_behavior (q : String) (chunks : List Doc) (n : Nat)
    (h : term_set q = ∅) :
    (chunks = [] → rerank_chunks q chunks n = .ok []) ∧
    (chunks ≠ [] → rerank_chunks q chunks n = .error "ZeroDivisionError") := by
  constructor
  · intro hc
    subst hc
    simp [rerank_chunks]
  · intro hc
    simp only [rerank_chunks]
    rw [if_pos ⟨h, hc⟩]

/-- Witness for C2's amended theorem at a concrete blank query. -/
theorem rerank_zero_term_query_behavior_witness :
    rerank_chunks " " [] 3 = .ok [] ∧
    rerank_chunks " "
      [{ page_content := "alpha", source := "s", page := .na, preview := "" }] 3 =
      .error "ZeroDivisionError" := by
  refine ⟨(rerank_zero_term_query_behavior " " [] 3 (by decide)).1 rfl, ?_⟩
  exact (rerank_zero_term_query_behavior " " _ 3 (by decide)).2 (List.cons_ne_nil _ _)

/-- Claim C3 (counterexample): the claim ties the overall verdict to the
ROUNDED overall score; the code compares the unrounded weighted sum.  With
all four metric scores at 0.6996 the reported `overall_score` rounds to 0.7
(so the claimed biconditional demands `PASS`), yet the verdict is `FAIL`. -/
theorem overall_verdict_not_from_rounded_score :
    (comprehensive_evaluation_core "q" "a" []
        { metric := "context_relevance", score := 0.6996, reasoning := "", verdict := "PASS", threshold := 0.7 }
        { metric := "faithfulness", score := 0.6996, reasoning := "", verdict := "FAITHFUL", threshold := 0.8 }
        { metric := "answer_relevance", score := 0.6996, reasoning := "", verdict := "RELEVANT", threshold := 0.7 }
        { metric := "citation_quality", score := 0.6996, reasoning := "", verdict := "GOOD", threshold := 0.6 }).overall_score = 0.7 ∧
    (comprehensive_evaluation_core "q" "a" []
        { metric := "context_relevance", score := 0.6996, reasoning := "", verdict := "PASS", threshold := 0.7 }
        { metric := "faithfulness", score := 0.6996, reasoning := "", verdict := "FAITHFUL", threshold := 0.8 }
        { metric := "answer_relevance", score := 0.6996, reasoning := "", verdict := "RELEVANT", threshold := 0.7 }
        { metric := "citation_quality", score := 0.6996, reasoning := "", verdict := "GOOD", threshold := 0.6 }).overall_verdict = "FAIL" := by
  constructor
  · simp only [comprehensive_evaluation_core, pyRound3, roundHalfEven]
    norm_num
  · simp only [comprehensive_evaluation_core]
    norm_num

/-- Claim C3 (amended): the overall score equals the fixed-weight sum
0.25/0.35/0.25/0.15 of the four metric scores rounded to 3 decimals, the
overall verdict is `PASS` iff the UNROUNDED weighted sum is ≥ 0.7 (`FAIL`
iff it is < 0.7), and the weights are fixed constants summing to 1, not
parameters of the call. -/
theorem overall_score_and_verdict_spec (q a : String) (srcs : List Citation)
    (cr f ar cq : MetricResult) :
    (comprehensive_evaluation_core q a srcs cr f ar cq).overall_score =
      pyRound3 (cr.score * 0.25 + f.score * 0.35 + ar.score * 0.25 + cq.score * 0.15) ∧
    ((comprehensive_evaluation_core q a srcs cr f ar cq).overall_verdict = "PASS" ↔
      0.7 ≤ cr.score * 0.25 + f.score * 0.35 + ar.score * 0.25 + cq.score * 0.15) ∧
    ((comprehensive_evaluation_core q a srcs cr f ar cq).overall_verdict = "FAIL" ↔
      cr.score * 0.25 + f.score * 0.35 + ar.score * 0.25 + cq.score * 0.15 < 0.7) ∧
    (0.25 + 0.35 + 0.25 + 0.15 : ℚ) = 1 := by
  refine ⟨rfl, ?_, ?_, by norm_num⟩
  · simp only [comprehensive_evaluation_core]
    split
    · rename_i hle
      simpa using hle
    · rename_i hlt
      constructor
      · intro hfalse
        exact absurd hfalse (by decide)
      · intro hle
        exact absurd hle hlt
  · simp only [comprehensive_evaluation_core]
    split
    · rename_i hle
      constructor
      · intro hfalse
        exact absurd hfalse (by decide)
      · intro hlt
        exact absurd hle (not_le.mpr hlt)
    · rename_i hlt
      simpa using not_le.mp hlt

/-- Claim C4: a query issued while no index is loaded short-circuits to the
fixed "Index not found" answer with empty sources, no evaluation (`none`),
and zero completion-collaborator invocations — for every question, `top_k`
and evaluate flag, and independently of what the collaborators would
return. -/
theorem query_index_not_found_short_circuit (retrieve : String → Nat → List Doc)
    (llm eval_llm : String → String) (question : String) (top_k : Nat) (evaluate : Bool) :
    query retrieve llm eval_llm none question top_k evaluate =
      .ok ({ answer := "Index not found. Please upload documents and ingest them first.",
             sources := [], contexts := [], evaluation := none }, 0) := by
  exact rfl

/-- Claim C9: any chunking request with `chunk_overlap ≥ chunk_size` fails
fast with a configuration error before any chunk is produced (the validation
happens before the document loop runs). -/
theorem chunk_overlap_must_be_less (docs : List DocIn) (size overlap : Nat)
    (h : size ≤ overlap) :
    chunk_with_page_tracking docs size overlap = .error "ConfigurationError" := by
  simp [chunk_with_page_tracking, h]

/-- Witness for C9 at the boundary `chunk_overlap = chunk_size`. -/
theorem chunk_overlap_must_be_less_witness :
    200 ≤ 200 ∧
    chunk_with_page_tracking [⟨"abc".toList, "f.pdf", none⟩] 200 200 =
      .error "ConfigurationError" :=
  ⟨by decide, chunk_overlap_must_be_less [⟨"abc".toList, "f.pdf", none⟩] 200 200 (by decide)⟩

/-- Deduplication output is a sublist of the input (order preserved, entries
taken from the input). -/
theorem dedup_go_sublist (seen : List (String × PageTag)) (l : List Citation) :
    List.Sublist (dedup_go seen l) l := by
  induction l generalizing seen with
  | nil => simp [dedup_go]
  | cons s rest ih =>
    simp only [dedup_go]
    split
    · exact (ih seen).trans (List.sublist_cons_self s rest)
    · exact (ih (ckey s :: seen)).cons₂ s

/-- Keys of deduplication output avoid the `seen` set. -/
theorem dedup_go_not_seen (seen : List (String × PageTag)) (l : List Citation) :
    ∀ y ∈ dedup_go seen l, ckey y ∉ seen := by
  induction l generalizing seen with
  | nil => simp [dedup_go]
  | cons s rest ih =>
    simp only [dedup_go]
    split
    · exact ih seen
    · rename_i hs
      intro y hy
      rcases List.mem_cons.mp hy with rfl | hy
      · exact hs
      · exact fun hmem => ih (ckey s :: seen) y hy (List.mem_cons_of_mem _ hmem)

/-- Deduplication output has pairwise distinct keys. -/
theorem dedup_go_pairwise (seen : List (String × PageTag)) (l : List Citation) :
    (dedup_go seen l).Pairwise (fun a b => ckey a ≠ ckey b) := by
  induction l generalizing seen with
  | nil => simp [dedup_go]
  | cons s rest ih =>
    simp only [dedup_go]
    split
    · exact ih seen
    · refine List.Pairwise.cons ?_ (ih (ckey s :: seen))
      intro y hy
      have := dedup_go_not_seen (ckey s :: seen) rest y hy
      exact fun he => this (he ▸ List.mem_cons_self _ _)

/-- Every kept citation is the FIRST input citation bearing its key. -/
theorem dedup_go_find (seen : List (String × PageTag)) (l : List Citation) :
    ∀ y ∈ dedup_go seen l, l.find? (fun z => decide (ckey z = ckey y)) = some y := by
  induction l generalizing seen with
  | nil => simp [dedup_go]
  | cons s rest ih =>
    simp only [dedup_go]
    split
    · rename_i hs
      intro y hy
      have hne : ckey s ≠ ckey y :=
        fun he => dedup_go_not_seen seen rest y hy (he ▸ hs)
      rw [List.find?_cons_of_neg _ (by simpa using hne)]
      exact ih seen y hy
    · rename_i hs
      intro y hy
      rcases List.mem_cons.mp hy with rfl | hy
      · exact List.find?_cons_of_pos _ (by simp)
      · have hnotin := dedup_go_not_seen (ckey s :: seen) rest y hy
        have hne : ckey s ≠ ckey y :=
          fun he => hnotin (he ▸ List.mem_cons_self _ _)
        rw [List.find?_cons_of_neg _ (by simpa using hne)]
        exact ih (ckey s :: seen) y hy

/-- Every input key survives deduplication (represented by some entry). -/
theorem dedup_go_covers (seen : List (String × PageTag)) (l : List Citation) :
    ∀ x ∈ l, ckey x ∉ seen → ∃ y ∈ dedup_go seen l, ckey y = ckey x := by
  induction l generalizing seen with
  | nil => simp
  | cons s rest ih =>
    intro x hx hxs
    simp only [dedup_go]
    split
    · rename_i hs
      rcases List.mem_cons.mp hx with rfl | hx
      · exact absurd hs hxs
      · exact ih seen x hx hxs
    · rename_i hs
      by_cases he : ckey x = ckey s
      · exact ⟨s, List.mem_cons_self _ _, he.symm⟩
      · rcases List.mem_cons.mp hx with rfl | hx
        · exact absurd rfl he
        · obtain ⟨y, hy, hk⟩ := ih (ckey s :: seen) x hx (by
            intro hmem
            rcases List.mem_cons.mp hmem with h2 | hmem
            · exact he h2
            · exact hxs hmem)
          exact ⟨y, List.mem_cons_of_mem _ hy, hk⟩

/-- Claim C7: for every citation list, deduplication by `(file, page)` key
returns a subsequence of the input (first-seen order preserved) in which no
two entries share a key; every kept entry is the first input entry with its
key (so later duplicates are dropped even when their preview differs), and
every input key is still represented. -/
theorem deduplicate_sources_first_seen (l : List Citation) :
    List.Sublist (deduplicate_sources l) l ∧
    (deduplicate_sources l).Pairwise (fun a b => ckey a ≠ ckey b) ∧
    (∀ y ∈ deduplicate_sources l, l.find? (fun z => decide (ckey z = ckey y)) = some y) ∧
    (∀ x ∈ l, ∃ y ∈ deduplicate_sources l, ckey y = ckey x) :=
  ⟨dedup_go_sublist [] l, dedup_go_pairwise [] l, dedup_go_find [] l,
   fun x hx => dedup_go_covers [] l x hx (List.not_mem_nil _)⟩

/-- Witness for C7 on a list with a duplicate key under differing previews. -/
theorem deduplicate_sources_first_seen_witness :
    ((⟨"f.pdf", .num 1, "previewA"⟩ : Citation) ∈
        deduplicate_sources
          [⟨"f.pdf", .num 1, "previewA"⟩, ⟨"f.pdf", .num 1, "previewB"⟩, ⟨"g.pdf", .num 2, "c"⟩] ∧
      ([⟨"f.pdf", .num 1, "previewA"⟩, ⟨"f.pdf", .num 1, "previewB"⟩,
          (⟨"g.pdf", .num 2, "c"⟩ : Citation)].find?
          (fun z => decide (ckey z = ckey ⟨"f.pdf", .num 1, "previewA"⟩))) =
        some ⟨"f.pdf", .num 1, "previewA"⟩) ∧
    ((⟨"f.pdf", .num 1, "previewB"⟩ : Citation) ∈
        [⟨"f.pdf", .num 1, "previewA"⟩, ⟨"f.pdf", .num 1, "previewB"⟩, ⟨"g.pdf", .num 2, "c"⟩] ∧
      ∃ y ∈ deduplicate_sources
          [⟨"f.pdf", .num 1, "previewA"⟩, ⟨"f.pdf", .num 1, "previewB"⟩, ⟨"g.pdf", .num 2, "c"⟩],
        ckey y = ckey ⟨"f.pdf", .num 1, "previewB"⟩) := by
  refine ⟨⟨by decide, ?_⟩, by decide, ?_⟩
  · exact (deduplicate_sources_first_seen _).2.2.1 _ (by decide)
  · exact (deduplicate_sources_first_seen _).2.2.2 _ (by decide)

/-- Transitivity of the reranker comparison. -/
theorem rerank_le_trans (qt : Finset String) (a b c : Doc)
    (hab : rerank_le qt a b) (hbc : rerank_le qt b c) : rerank_le qt a c := by
  simp only [rerank_le, decide_eq_true_eq] at *
  exact le_trans hbc hab

/-- Totality of the reranker comparison. -/
theorem rerank_le_total (qt : Finset String) (a b : Doc) :
    rerank_le qt a b || rerank_le qt b a := by
  simp only [rerank_le]
  rcases le_total (keyword_score qt a) (keyword_score qt b) with h | h <;> simp [h]

/-- Stability of the stable sort, equal-score slices preserved: filtering the
sorted list by any exact score gives the same list as filtering the input. -/
theorem mergeSort_rerank_filter (qt : Finset String) (l : List Doc) (s : ℚ) :
    (l.mergeSort (rerank_le qt)).filter (fun c => decide (keyword_score qt c = s)) =
      l.filter (fun c => decide (keyword_score qt c = s)) := by
  have hpair : (l.filter (fun c => decide (keyword_score qt c = s))).Pairwise
      (fun a b => rerank_le qt a b = true) := by
    refine List.pairwise_of_forall_mem_list ?_
    intro a ha b hb
    have ha2 : keyword_score qt a = s := by simpa using List.of_mem_filter ha
    have hb2 : keyword_score qt b = s := by simpa using List.of_mem_filter hb
    simp only [rerank_le, decide_eq_true_eq, ha2, hb2, le_refl]
  have hsub : List.Sublist (l.filter (fun c => decide (keyword_score qt c = s)))
      (l.mergeSort (rerank_le qt)) :=
    List.sublist_mergeSort (fun a b c => rerank_le_trans qt a b c)
      (fun a b => rerank_le_total qt a b) hpair (List.filter_sublist l)
  have hsub2 : List.Sublist (l.filter (fun c => decide (keyword_score qt c = s)))
      ((l.mergeSort (rerank_le qt)).filter (fun c => decide (keyword_score qt c = s))) := by
    have hthis := hsub.filter (fun c => decide (keyword_score qt c = s))
    rw [List.filter_filter] at hthis
    have hself : (fun a : Doc => decide (keyword_score qt a = s) &&
        decide (keyword_score qt a = s)) = (fun a : Doc => decide (keyword_score qt a = s)) := by
      funext x
      exact Bool.and_self _
    rwa [hself] at hthis
  have hlen : ((l.mergeSort (rerank_le qt)).filter
      (fun c => decide (keyword_score qt c = s))).length =
      (l.filter (fun c => decide (keyword_score qt c = s))).length :=
    ((List.mergeSort_perm l (rerank_le qt)).filter _).length_eq
  exact (hsub2.eq_of_length hlen.symm).symm

/-- Claim C6: with a non-degenerate query, the reranker stable-sorts the
candidates by lexical-overlap score in descending order and returns exactly
the first `top_n`: the full sorted list is a permutation of the input, is
pairwise descending in score, preserves the input order of equal-score
candidates, and the returned list is its `top_n`-prefix, of length
`min top_n (number of candidates)`, drawn from the input candidates (fewer
than `top_n` candidates are all returned, with no padding and no error). -/
theorem rerank_chunks_sorts_and_truncates (q : String) (chunks : List Doc) (n : Nat)
    (h : term_set q ≠ ∅) :
    ∃ full : List Doc,
      rerank_chunks q chunks chunks.length = .ok full ∧
      rerank_chunks q chunks n = .ok (full.take n) ∧
      full.Perm chunks ∧
      full.Pairwise
        (fun a b => keyword_score (term_set q) b ≤ keyword_score (term_set q) a) ∧
      (∀ s : ℚ, full.filter (fun c => decide (keyword_score (term_set q) c = s)) =
        chunks.filter (fun c => decide (keyword_score (term_set q) c = s))) ∧
      (full.take n).length = min n chunks.length ∧
      (∀ c ∈ full.take n, c ∈ chunks) := by
  have hcond : ¬ (term_set q = ∅ ∧ chunks ≠ []) := fun hc => h hc.1
  refine ⟨chunks.mergeSort (rerank_le (term_set q)), ?_, ?_, ?_, ?_, ?_, ?_, ?_⟩
  · simp only [rerank_chunks, if_neg hcond]
    rw [List.take_of_length_le (le_of_eq (List.length_mergeSort chunks))]
  · simp only [rerank_chunks, if_neg hcond]
  · exact List.mergeSort_perm chunks _
  · have hs := @List.sorted_mergeSort Doc (rerank_le (term_set q))
      (fun a b c => rerank_le_trans (term_set q) a b c)
      (fun a b => rerank_le_total (term_set q) a b) chunks
    exact hs.imp (fun hab => of_decide_eq_true hab)
  · exact fun s => mergeSort_rerank_filter (term_set q) chunks s
  · rw [List.length_take, List.length_mergeSort]
  · intro c hc
    exact ((List.mergeSort_perm chunks _).mem_iff).mp (List.mem_of_mem_take hc)

/-- Witness for C6 at a concrete query and candidate list. -/
theorem rerank_chunks_sorts_and_truncates_witness :
    term_set "the cat" ≠ ∅ ∧
    ∃ full : List Doc,
      rerank_chunks "the cat"
        [{ page_content := "a dog", source := "s1", page := .na, preview := "" },
         { page_content := "the cat sat", source := "s2", page := .na, preview := "" }] 2 = .ok full ∧
      rerank_chunks "the cat"
        [{ page_content := "a dog", source := "s1", page := .na, preview := "" },
         { page_content := "the cat sat", source := "s2", page := .na, preview := "" }] 1 =
        .ok (full.take 1) ∧
      full.Perm
        [{ page_content := "a dog", source := "s1", page := .na, preview := "" },
         { page_content := "the cat sat", source := "s2", page := .na, preview := "" }] ∧
      (full.take 1).length = min 1 2 := by
  refine ⟨by decide, ?_⟩
  obtain ⟨full, h1, h2, h3, _, _, h6, _⟩ :=
    rerank_chunks_sorts_and_truncates "the cat"
      [{ page_content := "a dog", source := "s1", page := .na, preview := "" },
       { page_content := "the cat sat", source := "s2", page := .na, preview := "" }] 1 (by decide)
  exact ⟨full, h1, h2, h3, h6⟩

/-- Claim C10: in each of the four metric evaluators the verdict is computed
solely from the parsed numeric score against the metric's fixed threshold,
ignoring any verdict text the completion collaborator supplied (the result
holds for EVERY parsed object `d`, whatever its `"verdict"` entry says); when
the score field is absent the score defaults to 0 and the verdict is the
failing one, and the threshold field is the fixed constant of the metric. -/
theorem metric_verdict_from_score_only (d : List (String × Json)) (q : ℚ) :
    (lookupLast d "average_score" = some (.num q) →
      evaluate_context_relevance_result d = .ok
        { metric := "context_relevance", score := q,
          reasoning := pyStr (dictGet d "reasoning" (.str "No reasoning provided")),
          verdict := if 0.7 ≤ q then "PASS" else "FAIL", threshold := 0.7 }) ∧
    (lookupLast d "average_score" = none →
      ∃ m, evaluate_context_relevance_result d = .ok m ∧
        m.score = 0 ∧ m.verdict = "FAIL" ∧ m.threshold = 0.7) ∧
    (lookupLast d "score" = some (.num q) →
      (∃ m, evaluate_faithfulness_result d = .ok m ∧ m.score = q ∧
        m.verdict = (if 0.8 ≤ q then "FAITHFUL" else "UNFAITHFUL") ∧ m.threshold = 0.8) ∧
      (∃ m, evaluate_answer_relevance_result d = .ok m ∧ m.score = q ∧
        m.verdict = (if 0.7 ≤ q then "RELEVANT" else "IRRELEVANT") ∧ m.threshold = 0.7) ∧
      (∃ m, evaluate_citation_quality_result d = .ok m ∧ m.score = q ∧
        m.verdict = (if 0.6 ≤ q then "GOOD" else "POOR") ∧ m.threshold = 0.6)) ∧
    (lookupLast d "score" = none →
      (∃ m, evaluate_faithfulness_result d = .ok m ∧
        m.score = 0 ∧ m.verdict = "UNFAITHFUL" ∧ m.threshold = 0.8) ∧
      (∃ m, evaluate_answer_relevance_result d = .ok m ∧
        m.score = 0 ∧ m.verdict = "IRRELEVANT" ∧ m.threshold = 0.7) ∧
      (∃ m, evaluate_citation_quality_result d = .ok m ∧
        m.score = 0 ∧ m.verdict = "POOR" ∧ m.threshold = 0.6)) := by
  have h07 : ¬ ((0.7 : ℚ) ≤ 0) := by norm_num
  have h08 : ¬ ((0.8 : ℚ) ≤ 0) := by norm_num
  have h06 : ¬ ((0.6 : ℚ) ≤ 0) := by norm_num
  refine ⟨?_, ?_, ?_, ?_⟩
  · intro h
    simp only [evaluate_context_relevance_result, dictGet, h]
    rfl
  · intro h
    refine ⟨{ metric := "context_relevance", score := 0,
              reasoning := pyStr (dictGet d "reasoning" (.str "No reasoning provided")),
              verdict := if (0.7 : ℚ) ≤ 0 then "PASS" else "FAIL", threshold := 0.7 },
            ?_, rfl, by rw [if_neg h07], rfl⟩
    simp only [evaluate_context_relevance_result, dictGet, h]
    rfl
  · intro h
    refine ⟨⟨{ metric := "faithfulness", score := q,
               reasoning := pyStr (dictGet d "reasoning" (.str "No reasoning provided")),
               verdict := if (0.8 : ℚ) ≤ q then "FAITHFUL" else "UNFAITHFUL", threshold := 0.8,
               unsupported_claims :=
                 asStrList (dictGet d "unsupported_claims" (.arr [])) },
             ?_, rfl, rfl, rfl⟩,
            ⟨{ metric := "answer_relevance", score := q,
               reasoning := pyStr (dictGet d "reasoning" (.str "No reasoning provided")),
               verdict := if (0.7 : ℚ) ≤ q then "RELEVANT" else "IRRELEVANT", threshold := 0.7,
               missing_aspects := asStrList (dictGet d "missing_aspects" (.arr [])) },
             ?_, rfl, rfl, rfl⟩,
            ⟨{ metric := "citation_quality", score := q,
               reasoning := pyStr (dictGet d "reasoning" (.str "No reasoning provided")),
               verdict := if (0.6 : ℚ) ≤ q then "GOOD" else "POOR", threshold := 0.6 },
             ?_, rfl, rfl, rfl⟩⟩
    · simp only [evaluate_faithfulness_result, dictGet, h]
      rfl
    · simp only [evaluate_answer_relevance_result, dictGet, h]
      rfl
    · simp only [evaluate_citation_quality_result, dictGet, h]
      rfl
  · intro h
    refine ⟨⟨{ metric := "faithfulness", score := 0,
               reasoning := pyStr (dictGet d "reasoning" (.str "No reasoning provided")),
               verdict := if (0.8 : ℚ) ≤ 0 then "FAITHFUL" else "UNFAITHFUL", threshold := 0.8,
               unsupported_claims :=
                 asStrList (dictGet d "unsupported_claims" (.arr [])) },
             ?_, rfl, by rw [if_neg h08], rfl⟩,
            ⟨{ metric := "answer_relevance", score := 0,
               reasoning := pyStr (dictGet d "reasoning" (.str "No reasoning provided")),
               verdict := if (0.7 : ℚ) ≤ 0 then "RELEVANT" else "IRRELEVANT", threshold := 0.7,
               missing_aspects := asStrList (dictGet d "missing_aspects" (.arr [])) },
             ?_, rfl, by rw [if_neg h07], rfl⟩,
            ⟨{ metric := "citation_quality", score := 0,
               reasoning := pyStr (dictGet d "reasoning" (.str "No reasoning provided")),
               verdict := if (0.6 : ℚ) ≤ 0 then "GOOD" else "POOR", threshold := 0.6 },
             ?_, rfl, by rw [if_neg h06], rfl⟩⟩
    · simp only [evaluate_faithfulness_result, dictGet, h]
      rfl
    · simp only [evaluate_answer_relevance_result, dictGet, h]
      rfl
    · simp only [evaluate_citation_quality_result, dictGet, h]
      rfl

/-- Witness for C10: a parsed object carrying a contradicting verdict text
(the collaborator said FAIL at a passing score), and an object with no score
field at all. -/
theorem metric_verdict_from_score_only_witness :
    evaluate_context_relevance_result
        [("average_score", .num 0.9), ("verdict", .str "FAIL")] = .ok
      { metric := "context_relevance", score := 0.9,
        reasoning := pyStr (dictGet [("average_score", .num 0.9), ("verdict", .str "FAIL")]
          "reasoning" (.str "No reasoning provided")),
        verdict := if 0.7 ≤ (0.9 : ℚ) then "PASS" else "FAIL", threshold := 0.7 } ∧
    (∃ m, evaluate_faithfulness_result [("verdict", .str "FAITHFUL")] = .ok m ∧
      m.score = 0 ∧ m.verdict = "UNFAITHFUL" ∧ m.threshold = 0.8) := by
  constructor
  · exact (metric_verdict_from_score_only
      [("average_score", .num 0.9), ("verdict", .str "FAIL")] 0.9).1 rfl
  · exact ((metric_verdict_from_score_only [("verdict", .str "FAITHFUL")] 0).2.2.2 rfl).1

/-- Claim C8: the recommendation list is generated deterministically from the
four metric results: when every metric meets its threshold the list is exactly
the single positive acknowledgment; otherwise its length is exactly the
number of below-threshold metrics, with each such metric contributing its own
recommendation string, and each per-metric recommendation string embeds that
metric's formatted score and its reasoning text. -/
theorem recommendations_threshold_driven (cr f ar cq : MetricResult) :
    ((0.7 ≤ cr.score ∧ 0.8 ≤ f.score ∧ 0.7 ≤ ar.score ∧ 0.6 ≤ cq.score) →
      generate_detailed_recommendations cr f ar cq = [positive_ack cr f ar cq]) ∧
    ((cr.score < 0.7 ∨ f.score < 0.8 ∨ ar.score < 0.7 ∨ cq.score < 0.6) →
      (generate_detailed_recommendations cr f ar cq).length =
        (if cr.score < 0.7 then 1 else 0) + (if f.score < 0.8 then 1 else 0) +
        (if ar.score < 0.7 then 1 else 0) + (if cq.score < 0.6 then 1 else 0)) ∧
    (cr.score < 0.7 →
      rec_context_relevance cr ∈ generate_detailed_recommendations cr f ar cq) ∧
    (f.score < 0.8 →
      rec_faithfulness f ∈ generate_detailed_recommendations cr f ar cq) ∧
    (ar.score < 0.7 →
      rec_answer_relevance ar ∈ generate_detailed_recommendations cr f ar cq) ∧
    (cq.score < 0.6 →
      rec_citation_quality cq ∈ generate_detailed_recommendations cr f ar cq) ∧
    (∃ pre post, rec_context_relevance cr =
      pre ++ fmt2 cr.score ++ "): " ++ cr.reasoning ++ post) ∧
    (∃ pre post, rec_faithfulness f =
      pre ++ fmt2 f.score ++ "): " ++ f.reasoning ++ post) ∧
    (∃ pre post, rec_answer_relevance ar =
      pre ++ fmt2 ar.score ++ "): " ++ ar.reasoning ++ post) ∧
    (∃ pre post, rec_citation_quality cq =
      pre ++ fmt2 cq.score ++ "): " ++ cq.reasoning ++ post) := by
  refine ⟨?_, ?_, ?_, ?_, ?_, ?_, ?_, ?_, ?_, ?_⟩
  · rintro ⟨h1, h2, h3, h4⟩
    simp [generate_detailed_recommendations,
      not_lt.mpr h1, not_lt.mpr h2, not_lt.mpr h3, not_lt.mpr h4]
  · intro hor
    by_cases h1 : cr.score < 0.7 <;> by_cases h2 : f.score < 0.8 <;>
      by_cases h3 : ar.score < 0.7 <;> by_cases h4 : cq.score < 0.6 <;>
      first
        | (simp [generate_detailed_recommendations, h1, h2, h3, h4]; done)
        | (exfalso; revert hor; simp [h1, h2, h3, h4])
  · intro h1
    simp [generate_detailed_recommendations, h1]
  · intro h2
    by_cases h1 : cr.score < 0.7 <;> simp [generate_detailed_recommendations, h1, h2]
  · intro h3
    by_cases h1 : cr.score < 0.7 <;> by_cases h2 : f.score < 0.8 <;>
      simp [generate_detailed_recommendations, h1, h2, h3]
  · intro h4
    by_cases h1 : cr.score < 0.7 <;> by_cases h2 : f.score < 0.8 <;>
      by_cases h3 : ar.score < 0.7 <;>
      simp [generate_detailed_recommendations, h1, h2, h3, h4]
  · exact ⟨"⚠️ LOW CONTEXT RELEVANCE (",
      ". Try: Increase Top K to 8-10, reduce chunk size to 600-800, or use better embeddings model.",
      rfl⟩
  · refine ⟨"🚨 LOW FAITHFULNESS (",
      ". Unsupported claims: " ++
        (if f.unsupported_claims.isEmpty then "See details"
         else String.intercalate ", " f.unsupported_claims) ++
        ". Try: Lower temperature to 0.3-0.5, improve prompt instructions, or check if documents contain the required info.",
      ?_⟩
    simp [rec_faithfulness, String.append_assoc]
  · refine ⟨"⚠️ LOW ANSWER RELEVANCE (",
      ". Missing: " ++
        (if ar.missing_aspects.isEmpty then "See details"
         else String.intercalate ", " ar.missing_aspects) ++
        ". Try: Rephrase query to be more specific, or check if documents actually contain the answer.",
      ?_⟩
    simp [rec_answer_relevance, String.append_assoc]
  · exact ⟨"📄 POOR CITATION QUALITY (",
      ". Try: Enhance prompt to explicitly require source citations for each claim.",
      rfl⟩

/-- Witness for C8: an all-passing metric quadruple yields the single
acknowledgment; replacing context relevance by a failing score yields exactly
one warning, which is the context-relevance recommendation. -/
theorem recommendations_threshold_driven_witness :
    generate_detailed_recommendations
        ⟨"context_relevance", 0.9, "ok", "PASS", 0.7, [], []⟩
        ⟨"faithfulness", 0.9, "ok", "FAITHFUL", 0.8, [], []⟩
        ⟨"answer_relevance", 0.9, "ok", "RELEVANT", 0.7, [], []⟩
        ⟨"citation_quality", 0.9, "ok", "GOOD", 0.6, [], []⟩ =
      [positive_ack
        ⟨"context_relevance", 0.9, "ok", "PASS", 0.7, [], []⟩
        ⟨"faithfulness", 0.9, "ok", "FAITHFUL", 0.8, [], []⟩
        ⟨"answer_relevance", 0.9, "ok", "RELEVANT", 0.7, [], []⟩
        ⟨"citation_quality", 0.9, "ok", "GOOD", 0.6, [], []⟩] ∧
    (generate_detailed_recommendations
        ⟨"context_relevance", 0.5, "weak retrieval", "FAIL", 0.7, [], []⟩
        ⟨"faithfulness", 0.9, "ok", "FAITHFUL", 0.8, [], []⟩
        ⟨"answer_relevance", 0.9, "ok", "RELEVANT", 0.7, [], []⟩
        ⟨"citation_quality", 0.9, "ok", "GOOD", 0.6, [], []⟩).length =
      (if (0.5 : ℚ) < 0.7 then 1 else 0) + (if (0.9 : ℚ) < 0.8 then 1 else 0) +
      (if (0.9 : ℚ) < 0.7 then 1 else 0) + (if (0.9 : ℚ) < 0.6 then 1 else 0) ∧
    rec_context_relevance ⟨"context_relevance", 0.5, "weak retrieval", "FAIL", 0.7, [], []⟩ ∈
      generate_detailed_recommendations
        ⟨"context_relevance", 0.5, "weak retrieval", "FAIL", 0.7, [], []⟩
        ⟨"faithfulness", 0.9, "ok", "FAITHFUL", 0.8, [], []⟩
        ⟨"answer_relevance", 0.9, "ok", "RELEVANT", 0.7, [], []⟩
        ⟨"citation_quality", 0.9, "ok", "GOOD", 0.6, [], []⟩ := by
  refine ⟨?_, ?_, ?_⟩
  · exact (recommendations_threshold_driven _ _ _ _).1
      ⟨by with_unfolding_all decide, by with_unfolding_all decide,
       by with_unfolding_all decide, by with_unfolding_all decide⟩
  · exact (recommendations_threshold_driven _ _ _ _).2.1
      (Or.inl (by with_unfolding_all decide))
  · exact (recommendations_threshold_driven _ _ _ _).2.2.1
      (by with_unfolding_all decide)

/-- Contiguous slices of a document are substrings of it. -/
theorem doc_slice_is_substring (doc : List Char) (a b : Nat) :
    infix_of (doc_slice doc a b) doc := by
  refine ⟨doc.take a, (doc.drop a).drop (b - a), ?_⟩
  rw [doc_slice, List.append_assoc, List.take_append_drop, List.take_append_drop]

/-- Boolean prefix check accepts a list against itself extended. -/
theorem isPrefixOf_append_self (p t : List Char) : p.isPrefixOf (p ++ t) = true := by
  induction p with
  | nil => simp [List.isPrefixOf]
  | cons c cs ih => simp [List.isPrefixOf, ih]

/-- Substrings have a first occurrence. -/
theorem first_occ_exists_of_substring (pat l : List Char) (h : infix_of pat l) :
    ∃ i, first_occ pat l = some i := by
  obtain ⟨s, t, rfl⟩ := h
  induction s with
  | nil =>
    refine ⟨0, ?_⟩
    rw [first_occ.eq_def, List.nil_append, if_pos (isPrefixOf_append_self pat t)]
  | cons c s ih =>
    by_cases hp : pat.isPrefixOf (c :: (s ++ (pat ++ t))) = true
    · refine ⟨0, ?_⟩
      rw [first_occ.eq_def]
      simp only [List.cons_append, List.append_assoc] at hp ⊢
      rw [if_pos hp]
    · obtain ⟨i, hi⟩ := ih
      refine ⟨i + 1, ?_⟩
      rw [first_occ.eq_def]
      simp only [List.cons_append, List.append_assoc] at hp hi ⊢
      rw [if_neg hp]
      rw [hi]
      rfl

/-- Second components of enumerated entries are members of the list. -/
theorem snd_mem_of_mem_enumFrom {α : Type} {p : Nat × α} :
    ∀ {n : Nat} {l : List α}, p ∈ l.enumFrom n → p.2 ∈ l := by
  intro n l
  induction l generalizing n with
  | nil => intro h; cases h
  | cons a t ih =>
    intro h
    rw [List.enumFrom_cons] at h
    rcases List.mem_cons.mp h with rfl | h
    · exact List.mem_cons_self _ _
    · exact List.mem_cons_of_mem _ (ih h)

/-- Every piece emitted by the splitter is a substring of the document. -/
theorem split_text_mem_substring (size overlap : Nat) (doc piece : List Char)
    (hp : piece ∈ split_text size overlap doc) : infix_of piece doc := by
  simp only [split_text, List.mem_map] at hp
  obtain ⟨iv, _, rfl⟩ := hp
  exact doc_slice_is_substring doc iv.1 iv.2

/-- Claim C5 (amended): every chunk emitted by the chunker has content that is
a substring of its source document, and its `relative_position` equals the
offset of the FIRST occurrence of that content in the document divided by the
total document length (0 when the document is empty), a non-negative value.
Because the offset is that of the first occurrence (`str.find`), the
positions are NOT monotonically non-decreasing in emission order when chunk
text repeats earlier text (see the counterexample). -/
theorem chunk_substring_and_position (docs : List DocIn) (size overlap : Nat)
    (out : List Chunk) (hout : chunk_with_page_tracking docs size overlap = .ok out) :
    ∀ c ∈ out, ∃ d ∈ docs,
      infix_of c.content d.page_content ∧
      ∃ i, first_occ c.content d.page_content = some i ∧
        c.chunk_position =
          (if 0 < d.page_content.length then (i : ℚ) / (d.page_content.length : ℚ) else 0) ∧
        0 ≤ c.chunk_position := by
  by_cases hso : size ≤ overlap
  · simp [chunk_with_page_tracking, hso] at hout
  · simp only [chunk_with_page_tracking, if_neg hso, Except.ok.injEq] at hout
    intro c hc
    rw [← hout] at hc
    rw [List.mem_flatten] at hc
    obtain ⟨lc, hlc, hcin⟩ := hc
    rw [List.mem_map] at hlc
    obtain ⟨d, hd, rfl⟩ := hlc
    refine ⟨d, hd, ?_⟩
    simp only [chunk_document, List.mem_map] at hcin
    obtain ⟨p, hp, rfl⟩ := hcin
    have hmem : p.2 ∈ split_text size overlap d.page_content :=
      snd_mem_of_mem_enumFrom hp
    have hinf : infix_of p.2 d.page_content := split_text_mem_substring _ _ _ _ hmem
    obtain ⟨i, hi⟩ := first_occ_exists_of_substring _ _ hinf
    have hfind : py_find p.2 d.page_content = (i : ℤ) := by
      rw [py_find, hi]
    refine ⟨hinf, i, hi, ?_, ?_⟩
    · show (if 0 < d.page_content.length then
          (py_find p.2 d.page_content : ℚ) / (d.page_content.length : ℚ) else 0) = _
      rw [hfind, Int.cast_natCast]
    · show (0 : ℚ) ≤ (if 0 < d.page_content.length then
          (py_find p.2 d.page_content : ℚ) / (d.page_content.length : ℚ) else 0)
      rw [hfind]
      split
      · exact div_nonneg (by positivity) (by positivity)
      · exact le_refl 0

/-- Document of the C5 witness. -/
def witness_doc : DocIn := ⟨"ab".toList, "f.docx", some (.str "Para-1")⟩

/-- The single chunk the chunker emits for the C5 witness document. -/
def witness_chunk : Chunk :=
  { content := "ab".toList
    source := "f.docx"
    page := .str "Para-1"
    chunk_id := 0
    chunk_position :=
      if 0 < ("ab".toList).length then
        (py_find "ab".toList "ab".toList : ℚ) / (("ab".toList).length : ℚ)
      else 0
    total_chunks := 1
    preview := "ab".toList }

/-- Witness for C5's amended theorem on a concrete one-chunk document. -/
theorem chunk_substring_and_position_witness :
    chunk_with_page_tracking [witness_doc] 2 0 = .ok [witness_chunk] ∧
    ∃ d ∈ [witness_doc],
      infix_of witness_chunk.content d.page_content ∧
      ∃ i, first_occ witness_chunk.content d.page_content = some i ∧
        witness_chunk.chunk_position =
          (if 0 < d.page_content.length then (i : ℚ) / (d.page_content.length : ℚ) else 0) ∧
        0 ≤ witness_chunk.chunk_position :=
  ⟨rfl, chunk_substring_and_position [witness_doc] 2 0 [witness_chunk] rfl witness_chunk
    (List.Mem.head _)⟩

/-- Claim C5 (counterexample): on the document `"a b a"` with `chunk_size = 1`
and `chunk_overlap = 0` the chunker emits chunks `"a"`, `"b"`, `"a"` whose
relative positions are `[0, 2/5, 0]` — `chunk_start` is computed with
`str.find`, the FIRST occurrence of the chunk text, so the third chunk's
position falls back to 0 and the sequence is not monotonically
non-decreasing. -/
theorem relative_position_not_monotone :
    ((chunk_with_page_tracking [⟨"a b a".toList, "doc.txt", none⟩] 1 0).toOption.getD []).map
        Chunk.chunk_position = [0, 2/5, 0] ∧
    ¬ List.Chain' (· ≤ ·)
      (((chunk_with_page_tracking [⟨"a b a".toList, "doc.txt", none⟩] 1 0).toOption.getD []).map
        Chunk.chunk_position) := by
  have hmap : ((chunk_with_page_tracking [⟨"a b a".toList, "doc.txt", none⟩] 1 0).toOption.getD
      []).map Chunk.chunk_position =
      [(py_find "a".toList "a b a".toList : ℚ) / (("a b a".toList).length : ℚ),
       (py_find "b".toList "a b a".toList : ℚ) / (("a b a".toList).length : ℚ),
       (py_find "a".toList "a b a".toList : ℚ) / (("a b a".toList).length : ℚ)] := rfl
  have ha : py_find "a".toList "a b a".toList = 0 := by decide
  have hb : py_find "b".toList "a b a".toList = 2 := by decide
  have hlen : ("a b a".toList).length = 5 := by decide
  rw [hmap, ha, hb, hlen]
  constructor
  · norm_num
  · intro h
    have h2 := (List.chain'_cons.mp h).2
    have h3 := (List.chain'_cons.mp h2).1
    norm_num at h3

end RFP
